import Mathlib

/-!
Verification of the op-deployer chain-provisioning pipeline.

This file shallowly embeds the Go sources of the deployment pipeline
(op-chain-ops/deployer and the configurator package) in Lean 4:

* pure functions (ChainIntent.Check, batchInboxAddress, base64 encoding,
  ApplyDeployConfigOverrides) become Lean functions;
* stateful / effectful code (NewDeployConfig, checkCreate2, the Configure,
  Deploy and Genesis pipeline stages) becomes explicit state passing, with
  the outcomes of every external call (RPC fetches, key derivation, the
  execution backend, file writes) supplied as oracle parameters, and with
  the list of writes to the output state document returned as a trace;
* Go machine integers (uint64, bytes) are Nat with explicit bounds where
  overflow or byte width matters;
* fallible Go code returning (T, error) becomes Except / Option;
* a Go nil-pointer dereference is an explicit panic outcome.

Types of the repository that are not part of the provided sources
(genesis.DeployConfig, rollup.Config and their JSON codecs) are modelled
from the specification and marked as such in their doc comments.
-/

set_option autoImplicit false

/-- A JSON value, the generic key/value document format that the Go code
round-trips configurations and state through.  Go object documents are
association lists of string keys. -/
inductive Json where
  | null : Json
  | jbool : Bool → Json
  | num : Nat → Json
  | str : String → Json
  | obj : List (String × Json) → Json

/-- Boolean equality on Json values (needed because the nested List
occurrence prevents a derived DecidableEq). -/
def Json.beq : Json → Json → Bool
  | .null, .null => true
  | .jbool a, .jbool b => a == b
  | .num a, .num b => a == b
  | .str a, .str b => a == b
  | .obj a, .obj b => beqList a b
  | _, _ => false
where beqList : List (String × Json) → List (String × Json) → Bool
  | [], [] => true
  | (k, v) :: rest, (k2, v2) :: rest2 => k == k2 && Json.beq v v2 && beqList rest rest2
  | _, _ => false

mutual

theorem Json.beq_iff : ∀ a b : Json, Json.beq a b = true ↔ a = b
  | .null, .null => by simp [Json.beq]
  | .jbool a, .jbool b => by simp [Json.beq]
  | .num a, .num b => by simp [Json.beq]
  | .str a, .str b => by simp [Json.beq]
  | .obj a, .obj b => by
      rw [Json.beq]
      rw [Json.beqList_iff a b]
      simp
  | .null, .jbool _ | .null, .num _ | .null, .str _ | .null, .obj _ => by simp [Json.beq]
  | .jbool _, .null | .jbool _, .num _ | .jbool _, .str _ | .jbool _, .obj _ => by simp [Json.beq]
  | .num _, .null | .num _, .jbool _ | .num _, .str _ | .num _, .obj _ => by simp [Json.beq]
  | .str _, .null | .str _, .jbool _ | .str _, .num _ | .str _, .obj _ => by simp [Json.beq]
  | .obj _, .null | .obj _, .jbool _ | .obj _, .num _ | .obj _, .str _ => by simp [Json.beq]

theorem Json.beqList_iff : ∀ a b : List (String × Json), Json.beq.beqList a b = true ↔ a = b
  | [], [] => by simp [Json.beq.beqList]
  | (k, v) :: rest, (k2, v2) :: rest2 => by
      rw [Json.beq.beqList]
      rw [Bool.and_eq_true, Bool.and_eq_true]
      rw [Json.beq_iff v v2, Json.beqList_iff rest rest2]
      simp [and_assoc]
  | [], (_, _) :: _ => by simp [Json.beq.beqList]
  | (_, _) :: _, [] => by simp [Json.beq.beqList]

end

instance : DecidableEq Json := fun a b =>
  decidable_of_iff (Json.beq a b = true) (Json.beq_iff a b)

/-! ## Base64 (Go encoding/base64 StdEncoding), used by Base64Encoded in state.go -/

/-- The standard base64 alphabet used by Go encoding/base64 StdEncoding. -/
def b64Alphabet : List Char :=
  ['A','B','C','D','E','F','G','H','I','J','K','L','M','N','O','P','Q','R','S','T',
   'U','V','W','X','Y','Z','a','b','c','d','e','f','g','h','i','j','k','l','m','n',
   'o','p','q','r','s','t','u','v','w','x','y','z','0','1','2','3','4','5','6','7',
   '8','9','+','/']

/-- Map a six-bit group to its base64 character. -/
def sextetToChar (n : Nat) : Char := b64Alphabet.getD n '?'

/-- Map a base64 character back to its six-bit group, none for characters
outside the alphabet (including the padding character). -/
def charToSextet (c : Char) : Option Nat := b64Alphabet.findIdx? (· = c)

/-- Go base64.StdEncoding.EncodeToString: bytes to base64 characters with
padding.  Bytes are Nat values below 256. -/
def b64Encode : List Nat → List Char
  | a :: b :: c :: rest =>
      sextetToChar (a / 4) :: sextetToChar (a % 4 * 16 + b / 16) ::
      sextetToChar (b % 16 * 4 + c / 64) :: sextetToChar (c % 64) :: b64Encode rest
  | [a, b] =>
      [sextetToChar (a / 4), sextetToChar (a % 4 * 16 + b / 16),
       sextetToChar (b % 16 * 4), '=']
  | [a] => [sextetToChar (a / 4), sextetToChar (a % 4 * 16), '=', '=']
  | [] => []

/-- Go base64.StdEncoding.DecodeString: base64 characters back to bytes,
none on malformed input. -/
def b64Decode : List Char → Option (List Nat)
  | [] => some []
  | w :: x :: y :: z :: rest =>
      match charToSextet w, charToSextet x with
      | some sw, some sx =>
        if y = '=' then
          if z = '=' ∧ rest = [] then some [sw * 4 + sx / 16] else none
        else
          match charToSextet y with
          | some sy =>
            if z = '=' then
              if rest = [] then some [sw * 4 + sx / 16, sx % 16 * 16 + sy / 4] else none
            else
              match charToSextet z with
              | some sz =>
                match b64Decode rest with
                | some tail => some ((sw * 4 + sx / 16) :: (sx % 16 * 16 + sy / 4) ::
                                     (sy % 4 * 64 + sz) :: tail)
                | none => none
              | none => none
          | none => none
      | _, _ => none
  | _ => none

theorem charToSextet_sextetToChar : ∀ n : Fin 64, charToSextet (sextetToChar n.val) = some n.val := by
  decide

theorem sextetToChar_ne_pad : ∀ n : Fin 64, sextetToChar n.val ≠ '=' := by
  decide

theorem charToSextet_sextetToChar_of_lt {n : Nat} (h : n < 64) :
    charToSextet (sextetToChar n) = some n :=
  charToSextet_sextetToChar ⟨n, h⟩

theorem sextetToChar_ne_pad_of_lt {n : Nat} (h : n < 64) : sextetToChar n ≠ '=' :=
  sextetToChar_ne_pad ⟨n, h⟩

/-- Round-trip of the base64 codec on byte lists. -/
theorem b64Decode_b64Encode : ∀ bs : List Nat, (∀ b ∈ bs, b < 256) →
    b64Decode (b64Encode bs) = some bs
  | [], _ => rfl
  | [a], h => by
      have ha : a < 256 := h a (by simp)
      have h1 : charToSextet (sextetToChar (a / 4)) = some (a / 4) :=
        charToSextet_sextetToChar_of_lt (by omega)
      have h2 : charToSextet (sextetToChar (a % 4 * 16)) = some (a % 4 * 16) :=
        charToSextet_sextetToChar_of_lt (by omega)
      rw [b64Encode, b64Decode, h1, h2]
      simp
      omega
  | [a, b], h => by
      have ha : a < 256 := h a (by simp)
      have hb : b < 256 := h b (by simp)
      have h1 : charToSextet (sextetToChar (a / 4)) = some (a / 4) :=
        charToSextet_sextetToChar_of_lt (by omega)
      have h2 : charToSextet (sextetToChar (a % 4 * 16 + b / 16)) = some (a % 4 * 16 + b / 16) :=
        charToSextet_sextetToChar_of_lt (by omega)
      have h3 : charToSextet (sextetToChar (b % 16 * 4)) = some (b % 16 * 4) :=
        charToSextet_sextetToChar_of_lt (by omega)
      have hy : sextetToChar (b % 16 * 4) ≠ '=' := sextetToChar_ne_pad_of_lt (by omega)
      rw [b64Encode, b64Decode, h1, h2]
      simp [hy, h3]
      omega
  | a :: b :: c :: rest, h => by
      have ha : a < 256 := h a (by simp)
      have hb : b < 256 := h b (by simp)
      have hc : c < 256 := h c (by simp)
      have ih := b64Decode_b64Encode rest (fun x hx => h x (by simp [hx]))
      have h1 : charToSextet (sextetToChar (a / 4)) = some (a / 4) :=
        charToSextet_sextetToChar_of_lt (by omega)
      have h2 : charToSextet (sextetToChar (a % 4 * 16 + b / 16)) = some (a % 4 * 16 + b / 16) :=
        charToSextet_sextetToChar_of_lt (by omega)
      have h3 : charToSextet (sextetToChar (b % 16 * 4 + c / 64)) = some (b % 16 * 4 + c / 64) :=
        charToSextet_sextetToChar_of_lt (by omega)
      have h4 : charToSextet (sextetToChar (c % 64)) = some (c % 64) :=
        charToSextet_sextetToChar_of_lt (by omega)
      have hy : sextetToChar (b % 16 * 4 + c / 64) ≠ '=' := sextetToChar_ne_pad_of_lt (by omega)
      have hz : sextetToChar (c % 64) ≠ '=' := sextetToChar_ne_pad_of_lt (by omega)
      rw [b64Encode, b64Decode, h1, h2]
      simp [hy, hz, h3, h4, ih]
      omega

/-! ## Big-endian byte and decimal digit representations.

natToBEBytes models Go math/big Int.Bytes(): the minimal big-endian byte
representation, empty for zero.  natToDecimal models the decimal strings Go
encoding/json uses for uint64 map keys. -/

/-- Minimal big-endian base-256 representation of a Nat (big.Int.Bytes). -/
def natToBEBytes (n : Nat) : List Nat :=
  if n = 0 then [] else natToBEBytes (n / 256) ++ [n % 256]
decreasing_by exact Nat.div_lt_self (Nat.pos_of_ne_zero (by assumption)) (by omega)

/-- Big-endian base-256 value of a byte list. -/
def beBytesToNat (bs : List Nat) : Nat :=
  bs.foldl (fun acc b => acc * 256 + b) 0

theorem beBytes_foldl_general (n : Nat) : ∀ acc : Nat,
    (natToBEBytes n).foldl (fun acc b => acc * 256 + b) acc = acc * 256 ^ (natToBEBytes n).length + n := by
  induction n using Nat.strong_induction_on with
  | _ n ih =>
    intro acc
    rw [natToBEBytes]
    by_cases h : n = 0
    · simp [h]
    · rw [if_neg h]
      rw [List.foldl_append, List.length_append]
      rw [ih (n / 256) (Nat.div_lt_self (Nat.pos_of_ne_zero h) (by omega)) acc]
      simp [List.foldl, Nat.pow_succ]
      ring_nf
      rw [Nat.add_assoc, Nat.div_add_mod']

/-- Decoding the minimal big-endian representation recovers the number. -/
theorem beBytesToNat_natToBEBytes (n : Nat) : beBytesToNat (natToBEBytes n) = n := by
  have := beBytes_foldl_general n 0
  simpa [beBytesToNat] using this

/-- The minimal big-endian representation is injective. -/
theorem natToBEBytes_injective : Function.Injective natToBEBytes := by
  intro a b h
  have ha := beBytesToNat_natToBEBytes a
  have hb := beBytesToNat_natToBEBytes b
  rw [h] at ha
  omega

theorem natToBEBytes_length_le (n k : Nat) (h : n < 256 ^ k) : (natToBEBytes n).length ≤ k := by
  induction k generalizing n with
  | zero =>
    have : n = 0 := by simpa using h
    simp [this, natToBEBytes]
  | succ k ih =>
    rw [natToBEBytes]
    by_cases h0 : n = 0
    · simp [h0]
    · rw [if_neg h0]
      rw [List.length_append]
      have : n / 256 < 256 ^ k := by
        rw [Nat.div_lt_iff_lt_mul (by omega)]
        calc n < 256 ^ (k + 1) := h
        _ = 256 ^ k * 256 := by rw [Nat.pow_succ]
      have := ih (n / 256) this
      simp
      omega

theorem natToBEBytes_lt (n : Nat) : ∀ b ∈ natToBEBytes n, b < 256 := by
  induction n using Nat.strong_induction_on with
  | _ n ih =>
    intro b hb
    rw [natToBEBytes] at hb
    by_cases h : n = 0
    · simp [h] at hb
    · rw [if_neg h] at hb
      rcases List.mem_append.mp hb with h1 | h2
      · exact ih (n / 256) (Nat.div_lt_self (Nat.pos_of_ne_zero h) (by omega)) b h1
      · simp at h2
        omega

/-- Decimal digits of a Nat, most significant first, empty for zero. -/
def natDigits (n : Nat) : List Nat :=
  if n = 0 then [] else natDigits (n / 10) ++ [n % 10]
decreasing_by exact Nat.div_lt_self (Nat.pos_of_ne_zero (by assumption)) (by omega)

/-- Go strconv.FormatUint base 10 / the decimal object keys encoding/json
writes for uint64-keyed maps. -/
def natToDecimal (n : Nat) : List Char :=
  if n = 0 then ['0'] else (natDigits n).map (fun d => Char.ofNat (48 + d))

/-- Value of a decimal digit character, none for non-digits. -/
def decDigitVal (c : Char) : Option Nat :=
  if 48 ≤ c.toNat ∧ c.toNat ≤ 57 then some (c.toNat - 48) else none

/-- Parse a decimal string back to a Nat, none on empty or non-digit input. -/
def decimalToNat (cs : List Char) : Option Nat :=
  if cs = [] then none
  else
    cs.foldl (fun acc c =>
      match acc, decDigitVal c with
      | some a, some d => some (a * 10 + d)
      | _, _ => none) (some 0)

theorem natDigits_lt (n : Nat) : ∀ d ∈ natDigits n, d < 10 := by
  induction n using Nat.strong_induction_on with
  | _ n ih =>
    intro d hd
    rw [natDigits] at hd
    by_cases h : n = 0
    · simp [h] at hd
    · rw [if_neg h] at hd
      rcases List.mem_append.mp hd with h1 | h2
      · exact ih (n / 10) (Nat.div_lt_self (Nat.pos_of_ne_zero h) (by omega)) d h1
      · simp at h2
        omega

theorem decDigitVal_ofNat {d : Nat} (h : d < 10) : decDigitVal (Char.ofNat (48 + d)) = some d := by
  interval_cases d <;> rfl

theorem decimal_foldl_general (n : Nat) (hn : n ≠ 0) : ∀ acc : Nat,
    ((natDigits n).map (fun d => Char.ofNat (48 + d))).foldl (fun acc c =>
      match acc, decDigitVal c with
      | some a, some d => some (a * 10 + d)
      | _, _ => none) (some acc) = some (acc * 10 ^ (natDigits n).length + n) := by
  induction n using Nat.strong_induction_on with
  | _ n ih =>
    intro acc
    rw [natDigits]
    rw [if_neg hn]
    by_cases h : n / 10 = 0
    · have hlt : n % 10 < 10 := Nat.mod_lt _ (by omega)
      simp [h, natDigits, List.foldl, decDigitVal_ofNat hlt]
      omega
    · rw [List.map_append, List.foldl_append, List.length_append]
      rw [ih (n / 10) (Nat.div_lt_self (Nat.pos_of_ne_zero hn) (by omega)) h acc]
      have hlt : n % 10 < 10 := Nat.mod_lt _ (by omega)
      simp [List.foldl, decDigitVal_ofNat hlt, Nat.pow_succ]
      ring_nf
      rw [Nat.add_assoc, Nat.div_add_mod']

/-- Round-trip of the decimal key codec. -/
theorem decimalToNat_natToDecimal (n : Nat) : decimalToNat (natToDecimal n) = some n := by
  by_cases h : n = 0
  · simp [h, natToDecimal, decimalToNat, decDigitVal]
  · rw [natToDecimal, if_neg h]
    have hne : natDigits n ≠ [] := by
      rw [natDigits, if_neg h]
      simp
    have hmapne : (natDigits n).map (fun d => Char.ofNat (48 + d)) ≠ [] := by
      intro hx
      exact hne (List.map_eq_nil_iff.mp hx)
    rw [decimalToNat, if_neg hmapne]
    have := decimal_foldl_general n h 0
    simpa using this

/-! ## Data model -/

/-- Modelled from the spec: the configuration fields of the typed
genesis.DeployConfig (a repository type outside the provided sources).  The
spec describes it as the fully resolved set of parameters; the enumerated
fields are exactly those the provided NewDeployConfig populates, each named
by its JSON document key. -/
inductive DCField where
  | fundDevAccounts
  | l2GenesisBlockGasLimit
  | l2GenesisBlockBaseFeePerGas
  | proxyAdminOwner
  | finalSystemOwner
  | baseFeeVaultRecipient
  | l1FeeVaultRecipient
  | sequencerFeeVaultRecipient
  | baseFeeVaultWithdrawalNetwork
  | l1FeeVaultWithdrawalNetwork
  | sequencerFeeVaultWithdrawalNetwork
  | enableGovernance
  | governanceTokenSymbol
  | governanceTokenName
  | governanceTokenOwner
  | gasPriceOracleBaseFeeScalar
  | gasPriceOracleBlobBaseFeeScalar
  | p2pSequencerAddress
  | batchSenderAddress
  | eip1559Denominator
  | eip1559DenominatorCanyon
  | eip1559Elasticity
  | l1ChainID
  | l2ChainID
  | l2BlockTime
  | finalizationPeriodSeconds
  | maxSequencerDrift
  | sequencerWindowSize
  | channelTimeout
  | batchInboxAddress
  | systemConfigStartBlock
  | l1StartingBlockTag
  | requiredProtocolVersion
  | recommendedProtocolVersion
  | superchainConfigGuardian
  | l2OutputOracleSubmissionInterval
  | l2OutputOracleStartingBlockNumber
  | l2OutputOracleStartingTimestamp
  | l2OutputOracleChallenger
  | l2OutputOracleProposer
  | useFaultProofs
  | faultGameAbsolutePrestate
  | faultGameMaxDepth
  | faultGameClockExtension
  | faultGameMaxClockDuration
  | faultGameGenesisBlock
  | faultGameGenesisOutputRoot
  | faultGameSplitDepth
  | faultGameWithdrawalDelay
  | preimageOracleMinProposalSize
  | preimageOracleChallengePeriod
  | useAltDA
  | daChallengeWindow
  | daResolveWindow
  | daBondSize
  | daResolverRefundPercentage
  deriving DecidableEq, Fintype

/-- The JSON document key of each configuration field. -/
def DCField.jsonKey : DCField → String
  | .fundDevAccounts => "fundDevAccounts"
  | .l2GenesisBlockGasLimit => "l2GenesisBlockGasLimit"
  | .l2GenesisBlockBaseFeePerGas => "l2GenesisBlockBaseFeePerGas"
  | .proxyAdminOwner => "proxyAdminOwner"
  | .finalSystemOwner => "finalSystemOwner"
  | .baseFeeVaultRecipient => "baseFeeVaultRecipient"
  | .l1FeeVaultRecipient => "l1FeeVaultRecipient"
  | .sequencerFeeVaultRecipient => "sequencerFeeVaultRecipient"
  | .baseFeeVaultWithdrawalNetwork => "baseFeeVaultWithdrawalNetwork"
  | .l1FeeVaultWithdrawalNetwork => "l1FeeVaultWithdrawalNetwork"
  | .sequencerFeeVaultWithdrawalNetwork => "sequencerFeeVaultWithdrawalNetwork"
  | .enableGovernance => "enableGovernance"
  | .governanceTokenSymbol => "governanceTokenSymbol"
  | .governanceTokenName => "governanceTokenName"
  | .governanceTokenOwner => "governanceTokenOwner"
  | .gasPriceOracleBaseFeeScalar => "gasPriceOracleBaseFeeScalar"
  | .gasPriceOracleBlobBaseFeeScalar => "gasPriceOracleBlobBaseFeeScalar"
  | .p2pSequencerAddress => "p2pSequencerAddress"
  | .batchSenderAddress => "batchSenderAddress"
  | .eip1559Denominator => "eip1559Denominator"
  | .eip1559DenominatorCanyon => "eip1559DenominatorCanyon"
  | .eip1559Elasticity => "eip1559Elasticity"
  | .l1ChainID => "l1ChainID"
  | .l2ChainID => "l2ChainID"
  | .l2BlockTime => "l2BlockTime"
  | .finalizationPeriodSeconds => "finalizationPeriodSeconds"
  | .maxSequencerDrift => "maxSequencerDrift"
  | .sequencerWindowSize => "sequencerWindowSize"
  | .channelTimeout => "channelTimeout"
  | .batchInboxAddress => "batchInboxAddress"
  | .systemConfigStartBlock => "systemConfigStartBlock"
  | .l1StartingBlockTag => "l1StartingBlockTag"
  | .requiredProtocolVersion => "requiredProtocolVersion"
  | .recommendedProtocolVersion => "recommendedProtocolVersion"
  | .superchainConfigGuardian => "superchainConfigGuardian"
  | .l2OutputOracleSubmissionInterval => "l2OutputOracleSubmissionInterval"
  | .l2OutputOracleStartingBlockNumber => "l2OutputOracleStartingBlockNumber"
  | .l2OutputOracleStartingTimestamp => "l2OutputOracleStartingTimestamp"
  | .l2OutputOracleChallenger => "l2OutputOracleChallenger"
  | .l2OutputOracleProposer => "l2OutputOracleProposer"
  | .useFaultProofs => "useFaultProofs"
  | .faultGameAbsolutePrestate => "faultGameAbsolutePrestate"
  | .faultGameMaxDepth => "faultGameMaxDepth"
  | .faultGameClockExtension => "faultGameClockExtension"
  | .faultGameMaxClockDuration => "faultGameMaxClockDuration"
  | .faultGameGenesisBlock => "faultGameGenesisBlock"
  | .faultGameGenesisOutputRoot => "faultGameGenesisOutputRoot"
  | .faultGameSplitDepth => "faultGameSplitDepth"
  | .faultGameWithdrawalDelay => "faultGameWithdrawalDelay"
  | .preimageOracleMinProposalSize => "preimageOracleMinProposalSize"
  | .preimageOracleChallengePeriod => "preimageOracleChallengePeriod"
  | .useAltDA => "useAltDA"
  | .daChallengeWindow => "daChallengeWindow"
  | .daResolveWindow => "daResolveWindow"
  | .daBondSize => "daBondSize"
  | .daResolverRefundPercentage => "daResolverRefundPercentage"

/-- The configuration fields in document order. -/
def allDCFields : List DCField :=
  [.fundDevAccounts, .l2GenesisBlockGasLimit, .l2GenesisBlockBaseFeePerGas,
   .proxyAdminOwner, .finalSystemOwner,
   .baseFeeVaultRecipient, .l1FeeVaultRecipient, .sequencerFeeVaultRecipient,
   .baseFeeVaultWithdrawalNetwork, .l1FeeVaultWithdrawalNetwork,
   .sequencerFeeVaultWithdrawalNetwork,
   .enableGovernance, .governanceTokenSymbol, .governanceTokenName, .governanceTokenOwner,
   .gasPriceOracleBaseFeeScalar, .gasPriceOracleBlobBaseFeeScalar,
   .p2pSequencerAddress, .batchSenderAddress,
   .eip1559Denominator, .eip1559DenominatorCanyon, .eip1559Elasticity,
   .l1ChainID, .l2ChainID, .l2BlockTime, .finalizationPeriodSeconds,
   .maxSequencerDrift, .sequencerWindowSize, .channelTimeout,
   .batchInboxAddress, .systemConfigStartBlock, .l1StartingBlockTag,
   .requiredProtocolVersion, .recommendedProtocolVersion, .superchainConfigGuardian,
   .l2OutputOracleSubmissionInterval, .l2OutputOracleStartingBlockNumber,
   .l2OutputOracleStartingTimestamp, .l2OutputOracleChallenger, .l2OutputOracleProposer,
   .useFaultProofs, .faultGameAbsolutePrestate, .faultGameMaxDepth,
   .faultGameClockExtension, .faultGameMaxClockDuration, .faultGameGenesisBlock,
   .faultGameGenesisOutputRoot, .faultGameSplitDepth, .faultGameWithdrawalDelay,
   .preimageOracleMinProposalSize, .preimageOracleChallengePeriod,
   .useAltDA, .daChallengeWindow, .daResolveWindow, .daBondSize,
   .daResolverRefundPercentage]

theorem allDCFields_complete : ∀ f : DCField, f ∈ allDCFields := by decide

/-- Modelled from the spec: the typed deployment configuration, as the
total assignment of a document value to every configuration field. -/
def DeployConfig := DCField → Json

instance : DecidableEq DeployConfig :=
  inferInstanceAs (DecidableEq (DCField → Json))

/-- Field update on a deployment configuration (a Go struct field assignment). -/
def DeployConfig.setF (c : DeployConfig) (f : DCField) (v : Json) : DeployConfig :=
  fun g => if g = f then v else c g

/-- The abstract key-derivation roles requested by NewDeployConfig
(devkeys roles in the source). -/
inductive Role where
  | l2ProxyAdminOwner
  | l1ProxyAdminOwner
  | baseFeeVaultRecipient
  | l1FeeVaultRecipient
  | sequencerFeeVaultRecipient
  | sequencerP2P
  | batcher
  | superchainConfigGuardian
  | challenger
  | proposer
  deriving DecidableEq

/-- ChainIntent from the configurator package: the declarative description
of the desired chain.  The Overrides Go map is an association list, none
for a nil map. -/
structure ChainIntent where
  L1ChainID : Nat
  L2ChainID : Nat
  UseFaultProofs : Bool
  UseAltDA : Bool
  FundDevAccounts : Bool
  Overrides : Option (List (String × Json))
  deriving DecidableEq

/-- ChainIntent.Check from the configurator package. -/
def ChainIntent.Check (c : ChainIntent) : Except String Unit :=
  if c.L1ChainID = 0 then .error "L1ChainID must be set"
  else if c.L2ChainID = 0 then .error "L2ChainID must be set"
  else if c.UseFaultProofs && c.UseAltDA then .error "cannot use both fault proofs and alt-DA"
  else .ok ()

/-- Addresses from addresses.go: the fixed named set of contract addresses
produced by a deployment run.  Addresses are 160-bit numbers. -/
structure Addresses where
  AddressManager : Nat
  AnchorStateRegistry : Nat
  AnchorStateRegistryProxy : Nat
  DelayedWETH : Nat
  DelayedWETHProxy : Nat
  DisputeGameFactory : Nat
  DisputeGameFactoryProxy : Nat
  L1CrossDomainMessenger : Nat
  L1CrossDomainMessengerProxy : Nat
  L1ERC721Bridge : Nat
  L1ERC721BridgeProxy : Nat
  L1StandardBridge : Nat
  L1StandardBridgeProxy : Nat
  L2OutputOracle : Nat
  L2OutputOracleProxy : Nat
  Mips : Nat
  OptimismMintableERC20Factory : Nat
  OptimismMintableERC20FactoryProxy : Nat
  OptimismPortal : Nat
  OptimismPortal2 : Nat
  OptimismPortalProxy : Nat
  PreimageOracle : Nat
  ProtocolVersions : Nat
  ProtocolVersionsProxy : Nat
  ProxyAdmin : Nat
  SafeProxyFactory : Nat
  SafeSingleton : Nat
  SuperchainConfig : Nat
  SuperchainConfigProxy : Nat
  SystemConfig : Nat
  SystemConfigProxy : Nat
  SystemOwnerSafe : Nat
  deriving DecidableEq

/-- Modelled from the spec: rollup.Config (op-node), the client-facing
rollup configuration record; its contents are opaque to the pipeline. -/
structure RollupConfig where
  val : Nat
  deriving DecidableEq

/-- DeploymentState from state.go: the persisted aggregate document.
Pointer-valued Go fields are Option; the uint64-keyed Go maps are
association lists (nil and empty maps identified, as both are omitted by
omitempty and decode to an empty map semantically). -/
structure DeploymentState where
  intent : Option ChainIntent
  deployConfig : Option DeployConfig
  addresses : Option Addresses
  genesisFiles : List (Nat × List Nat)
  rollupConfigs : List (Nat × RollupConfig)
  deriving DecidableEq

/-! ## The generic key/value document and ApplyDeployConfigOverrides -/

/-- First-match key lookup in a document (Go map read). -/
def lookupKV (k : String) : List (String × Json) → Option Json
  | [] => none
  | (k2, v) :: rest => if k2 = k then some v else lookupKV k rest

/-- Go map assignment m[k] = v on a document: replaces the entry when the
key is present, appends otherwise. -/
def mapSet (m : List (String × Json)) (k : String) (v : Json) : List (String × Json) :=
  match m with
  | [] => [(k, v)]
  | (k2, v2) :: rest => if k2 = k then (k, v) :: rest else (k2, v2) :: mapSet rest k v

/-- The keys of a document. -/
def keysOf (m : List (String × Json)) : List String := m.map Prod.fst

/-- json.Marshal of the typed deployment configuration: one document entry
per configuration field. -/
def marshalDeployConfig (c : DeployConfig) : List (String × Json) :=
  allDCFields.map (fun f => (DCField.jsonKey f, c f))

/-- The document keys of the typed configuration. -/
def deployConfigKeys : List String := allDCFields.map DCField.jsonKey

/-- Modelled from the spec: json.Unmarshal of a document into the typed
genesis.DeployConfig (whose decoder is outside the provided sources).  Per
the spec, unknown keys are rejected at this final decode step; known keys
populate their fields. -/
def unmarshalDeployConfig (doc : List (String × Json)) : Except String DeployConfig :=
  if doc.all (fun kv => deployConfigKeys.contains kv.1) then
    .ok (fun f => (lookupKV (DCField.jsonKey f) doc).getD .null)
  else .error "failed to unmarshal overridden deploy config"

/-- ApplyDeployConfigOverrides from the configurator package: marshal the
configuration to a generic document, merge the override entries with Go map
assignment (override wins), and decode the document back into the typed
configuration. -/
def ApplyDeployConfigOverrides (deployConfig : DeployConfig)
    (overrides : List (String × Json)) : Except String DeployConfig :=
  let tmpDeployConfig := marshalDeployConfig deployConfig
  let tmpDeployConfig := overrides.foldl (fun m kv => mapSet m kv.1 kv.2) tmpDeployConfig
  unmarshalDeployConfig tmpDeployConfig

theorem lookupKV_mapSet_self (m : List (String × Json)) (k : String) (v : Json) :
    lookupKV k (mapSet m k v) = some v := by
  induction m with
  | nil => simp [mapSet, lookupKV]
  | cons kv rest ih =>
    obtain ⟨k2, v2⟩ := kv
    by_cases h : k2 = k
    · simp [mapSet, h, lookupKV]
    · simp [mapSet, h, lookupKV, ih]

theorem lookupKV_mapSet_other (m : List (String × Json)) (k k2 : String) (v : Json)
    (h : k2 ≠ k) : lookupKV k2 (mapSet m k v) = lookupKV k2 m := by
  induction m with
  | nil => simp [mapSet, lookupKV, Ne.symm h]
  | cons kv rest ih =>
    obtain ⟨k3, v3⟩ := kv
    rw [mapSet]
    by_cases h3 : k3 = k
    · rw [if_pos h3]
      simp only [lookupKV]
      rw [if_neg (Ne.symm h), if_neg (show ¬ k3 = k2 by rw [h3]; exact Ne.symm h)]
    · rw [if_neg h3]
      simp only [lookupKV]
      rw [ih]

theorem keysOf_mapSet (m : List (String × Json)) (k k2 : String) (v : Json) :
    k2 ∈ keysOf (mapSet m k v) ↔ k2 ∈ keysOf m ∨ k2 = k := by
  induction m with
  | nil => simp [mapSet, keysOf, eq_comm]
  | cons kv rest ih =>
    obtain ⟨k3, v3⟩ := kv
    rw [mapSet]
    by_cases h3 : k3 = k
    · subst h3
      rw [if_pos rfl]
      simp [keysOf, eq_comm]
      tauto
    · rw [if_neg h3]
      simp [keysOf] at ih ⊢
      tauto

/-- Folding Go map assignments over the override entries: a key absent from
the overrides keeps its original binding. -/
theorem lookupKV_mergeFold_notin (ov : List (String × Json)) (base : List (String × Json))
    (k : String) (h : k ∉ keysOf ov) :
    lookupKV k (ov.foldl (fun m kv => mapSet m kv.1 kv.2) base) = lookupKV k base := by
  induction ov generalizing base with
  | nil => rfl
  | cons kv rest ih =>
    obtain ⟨k2, v2⟩ := kv
    have hk : k ≠ k2 := by
      intro hx
      exact h (by simp [keysOf, hx])
    have hrest : k ∉ keysOf rest := by
      intro hx
      refine h ?_
      simp [keysOf] at hx ⊢
      right
      exact hx
    rw [List.foldl_cons]
    rw [ih _ hrest]
    exact lookupKV_mapSet_other _ _ _ _ hk

/-- Folding Go map assignments over override entries with pairwise distinct
keys (a Go map): each override entry ends bound to its value. -/
theorem lookupKV_mergeFold_mem (ov : List (String × Json)) (base : List (String × Json))
    (k : String) (v : Json) (hnd : (keysOf ov).Nodup) (h : (k, v) ∈ ov) :
    lookupKV k (ov.foldl (fun m kv => mapSet m kv.1 kv.2) base) = some v := by
  induction ov generalizing base with
  | nil => simp at h
  | cons kv rest ih =>
    obtain ⟨k2, v2⟩ := kv
    simp only [keysOf, List.map_cons, List.nodup_cons] at hnd
    obtain ⟨hnd1, hnd2⟩ := hnd
    rcases List.mem_cons.mp h with heq | hmem
    · cases heq
      rw [List.foldl_cons]
      rw [lookupKV_mergeFold_notin rest _ k (by simpa [keysOf] using hnd1)]
      exact lookupKV_mapSet_self _ _ _
    · rw [List.foldl_cons]
      exact ih _ hnd2 hmem

theorem keysOf_mergeFold (ov : List (String × Json)) (base : List (String × Json))
    (k : String) :
    k ∈ keysOf (ov.foldl (fun m kv => mapSet m kv.1 kv.2) base) ↔
      k ∈ keysOf base ∨ k ∈ keysOf ov := by
  induction ov generalizing base with
  | nil => simp [keysOf]
  | cons kv rest ih =>
    obtain ⟨k2, v2⟩ := kv
    rw [List.foldl_cons]
    rw [ih]
    rw [keysOf_mapSet]
    simp [keysOf]
    tauto

theorem lookupKV_eq_none_iff (m : List (String × Json)) (k : String) :
    lookupKV k m = none ↔ k ∉ keysOf m := by
  induction m with
  | nil => simp [lookupKV, keysOf]
  | cons kv rest ih =>
    obtain ⟨k2, v2⟩ := kv
    by_cases h : k2 = k
    · subst h
      simp [lookupKV, keysOf]
    · simp [lookupKV, h, keysOf, ih, Ne.symm h]

theorem lookupKV_mem (m : List (String × Json)) (k : String) (v : Json)
    (h : lookupKV k m = some v) : (k, v) ∈ m := by
  induction m with
  | nil => simp [lookupKV] at h
  | cons kv rest ih =>
    obtain ⟨k2, v2⟩ := kv
    by_cases h2 : k2 = k
    · subst h2
      simp [lookupKV] at h
      subst h
      exact List.mem_cons_self _ _
    · simp only [lookupKV, if_neg h2] at h
      exact List.mem_cons_of_mem _ (ih h)

/-- Every configuration field is bound to its value in the marshalled
document. -/
theorem lookupKV_marshalDeployConfig (c : DeployConfig) (f : DCField) :
    lookupKV (DCField.jsonKey f) (marshalDeployConfig c) = some (c f) := by
  cases f <;> rfl

/-- The marshalled document carries exactly the configuration keys. -/
theorem keysOf_marshalDeployConfig (c : DeployConfig) :
    keysOf (marshalDeployConfig c) = deployConfigKeys := by
  simp [keysOf, marshalDeployConfig, deployConfigKeys, List.map_map]

/-- C3: for every base DeployConfig and every override map whose keys are
all existing configuration fields, ApplyDeployConfigOverrides returns the
base configuration with exactly those fields replaced by the override
values (override wins on key collision); and for every override map
containing a key that is not a DeployConfig field, the final decode fails
and no configuration is returned.  The override map is an association list
with pairwise distinct keys, as a Go map. -/
theorem applyDeployConfigOverrides_spec (c : DeployConfig) (ov : List (String × Json))
    (hnd : (keysOf ov).Nodup) :
    ((∀ k ∈ keysOf ov, k ∈ deployConfigKeys) →
      ∃ c2, ApplyDeployConfigOverrides c ov = .ok c2 ∧
        ∀ f, c2 f = match lookupKV (DCField.jsonKey f) ov with
          | some v => v
          | none => c f) ∧
    ((∃ k ∈ keysOf ov, k ∉ deployConfigKeys) →
      ∃ e, ApplyDeployConfigOverrides c ov = .error e) := by
  constructor
  · intro hall
    have hcheck : (ov.foldl (fun m kv => mapSet m kv.1 kv.2) (marshalDeployConfig c)).all
        (fun kv => deployConfigKeys.contains kv.1) = true := by
      rw [List.all_eq_true]
      intro kv hkv
      have hkey : kv.1 ∈ keysOf (ov.foldl (fun m kv => mapSet m kv.1 kv.2) (marshalDeployConfig c)) :=
        List.mem_map_of_mem Prod.fst hkv
      rcases (keysOf_mergeFold ov (marshalDeployConfig c) kv.1).mp hkey with hbase | hov
      · rw [keysOf_marshalDeployConfig] at hbase
        simpa using hbase
      · simpa using hall kv.1 hov
    refine ⟨fun f => (lookupKV (DCField.jsonKey f)
        (ov.foldl (fun m kv => mapSet m kv.1 kv.2) (marshalDeployConfig c))).getD .null, ?_, ?_⟩
    · rw [ApplyDeployConfigOverrides]
      rw [unmarshalDeployConfig, if_pos hcheck]
    · intro f
      dsimp only
      rcases hov : lookupKV (DCField.jsonKey f) ov with _ | v
      · have hnotin : DCField.jsonKey f ∉ keysOf ov := (lookupKV_eq_none_iff ov _).mp hov
        rw [lookupKV_mergeFold_notin ov _ _ hnotin]
        rw [lookupKV_marshalDeployConfig]
        rfl
      · have hmem : (DCField.jsonKey f, v) ∈ ov := lookupKV_mem ov _ v hov
        rw [lookupKV_mergeFold_mem ov _ _ v hnd hmem]
        rfl
  · rintro ⟨k, hk, hknot⟩
    have hkey : k ∈ keysOf (ov.foldl (fun m kv => mapSet m kv.1 kv.2) (marshalDeployConfig c)) :=
      (keysOf_mergeFold ov (marshalDeployConfig c) k).mpr (Or.inr hk)
    simp only [keysOf, List.mem_map] at hkey
    obtain ⟨kv, hkv, hkvk⟩ := hkey
    have hcheck : ¬ ((ov.foldl (fun m kv => mapSet m kv.1 kv.2) (marshalDeployConfig c)).all
        (fun kv => deployConfigKeys.contains kv.1) = true) := by
      rw [List.all_eq_true]
      intro hx
      have := hx kv hkv
      rw [hkvk] at this
      simp at this
      exact hknot this
    refine ⟨"failed to unmarshal overridden deploy config", ?_⟩
    rw [ApplyDeployConfigOverrides]
    rw [unmarshalDeployConfig, if_neg hcheck]

/-- Witness for C3 at concrete inputs: an override of the l2BlockTime field
merges into the all-null base configuration, and an override with an
unknown key is rejected at the decode step. -/
theorem applyDeployConfigOverrides_spec_witness :
    (∃ c2, ApplyDeployConfigOverrides (fun _ => Json.null) [("l2BlockTime", Json.num 7)] = .ok c2 ∧
      ∀ f, c2 f = match lookupKV (DCField.jsonKey f) [("l2BlockTime", Json.num 7)] with
        | some v => v
        | none => (fun _ => Json.null : DeployConfig) f) ∧
    (∃ e, ApplyDeployConfigOverrides (fun _ => Json.null) [("notAField", Json.num 1)] = .error e) :=
  ⟨(applyDeployConfigOverrides_spec (fun _ => Json.null) [("l2BlockTime", Json.num 7)]
      (by decide)).1 (by decide),
   (applyDeployConfigOverrides_spec (fun _ => Json.null) [("notAField", Json.num 1)]
      (by decide)).2 (by decide)⟩

/-! ## batchInboxAddress and NewDeployConfig (configurator package) -/

/-- The write loop of batchInboxAddress: writes the byte sequence (last
chain-id byte first) into the 20-byte address at positions j, j-1, ...,
stopping after writing position 1 (the Go loop breaks when j reaches 0
after the decrement) or when the bytes run out. -/
def writeLoop (addr : List Nat) (bytesRev : List Nat) (j : Nat) : List Nat :=
  match bytesRev with
  | [] => addr
  | b :: rest =>
    let addr2 := addr.set j b
    if j = 1 then addr2 else writeLoop addr2 rest (j - 1)

/-- batchInboxAddress from the configurator package: a 20-byte address
starting 0x42, with the big-endian bytes of the chain id copied in from the
end.  The address is a byte list of length 20. -/
def batchInboxAddress (chainID : Nat) : List Nat :=
  let addr := 0x42 :: List.replicate 19 0
  let chainIDBytes := natToBEBytes chainID
  writeLoop addr chainIDBytes.reverse 19

/-- The magnitude of ChainIntent.L2ChainIDBig, the big.Int that
NewDeployConfig passes to batchInboxAddress: big.NewInt(int64(id)) for the
uint64 id.  The int64 conversion wraps ids at or above 2^63 to the
negative id - 2^64, and big.Int.Bytes() (the only use, inside
batchInboxAddress) takes the absolute value, 2^64 - id. -/
def L2ChainIDBigAbs (id : Nat) : Nat :=
  if id < 2 ^ 63 then id else 2 ^ 64 - id

/-- Modelled from the spec: rollup.OPStackSupport (op-node), an external
protocol-version constant whose value the pipeline treats as opaque. -/
def OPStackSupport : Nat := 0

/-- DefaultFaultGameAbsolutePrestate from the configurator package. -/
def DefaultFaultGameAbsolutePrestate : Nat :=
  0x03c7ae758795765c6664a5d39bf63841c71ff191e9189522bad8ebff5d4eca98

/-- Error values surfaced by the embedded pipeline functions. -/
inductive GoError where
  | fetchL1Head
  | keyDerivation (r : Role)
  | applyOverrides
  | validation
  deriving DecidableEq

/-- Network calls NewDeployConfig makes against the anchor chain. -/
inductive NetCall where
  | headerByNumber
  deriving DecidableEq

/-- The addrFor closure of NewDeployConfig: returns the derived address for
a role, short-circuiting to the zero address once the captured guardErr is
set, and capturing the first derivation failure into guardErr. -/
def addrFor (keygen : Role → Option Nat) (guardErr : Option GoError) (role : Role) :
    Nat × Option GoError :=
  match guardErr with
  | some e => (0, some e)
  | none =>
    match keygen role with
    | some a => (a, none)
    | none => (0, some (.keyDerivation role))

/-- The sequence of addrFor calls in evaluation order, threading the
mutable guardErr of the source as explicit state. -/
def runAddrFor (keygen : Role → Option Nat) (guardErr : Option GoError) :
    List Role → List Nat × Option GoError
  | [] => ([], guardErr)
  | r :: rest =>
    let p := addrFor keygen guardErr r
    let q := runAddrFor keygen p.2 rest
    (p.1 :: q.1, q.2)

/-- The roles NewDeployConfig derives addresses for, in the evaluation
order of the Go composite literal (the l2ProxyAdminOwner role is requested
twice: ProxyAdminOwner and GovernanceTokenOwner). -/
def newDeployConfigRoles : List Role :=
  [.l2ProxyAdminOwner, .l1ProxyAdminOwner, .baseFeeVaultRecipient, .l1FeeVaultRecipient,
   .sequencerFeeVaultRecipient, .l2ProxyAdminOwner, .sequencerP2P, .batcher,
   .superchainConfigGuardian, .challenger, .proposer]

/-- NewDeployConfig from the configurator package.  External effects are
oracle parameters: keygen gives the key-derivation outcome per role,
l1HeadHash the outcome of the HeaderByNumber fetch of the anchor chain head
(none for a fetch error), cfgCheck the verdict of the external
genesis.DeployConfig.Check validation.  Returns the result together with
the trace of network calls made; the head-block fetch is unconditionally
the first action of the source. -/
def NewDeployConfig (keygen : Role → Option Nat) (l1HeadHash : Option Nat)
    (cfgCheck : DeployConfig → Bool) (intent : ChainIntent) :
    Except GoError DeployConfig × List NetCall :=
  match l1HeadHash with
  | none => (.error .fetchL1Head, [.headerByNumber])
  | some l1StartingBlockHash =>
    let ag := runAddrFor keygen none newDeployConfigRoles
    let addrs := ag.1
    let guardErr := ag.2
    let cfg : DeployConfig := fun f =>
      match f with
      | .fundDevAccounts => .jbool false
      | .l2GenesisBlockGasLimit => .num 30000000
      | .l2GenesisBlockBaseFeePerGas => .num 1000000000
      | .proxyAdminOwner => .num (addrs.getD 0 0)
      | .finalSystemOwner => .num (addrs.getD 1 0)
      | .baseFeeVaultRecipient => .num (addrs.getD 2 0)
      | .l1FeeVaultRecipient => .num (addrs.getD 3 0)
      | .sequencerFeeVaultRecipient => .num (addrs.getD 4 0)
      | .baseFeeVaultWithdrawalNetwork => .str "local"
      | .l1FeeVaultWithdrawalNetwork => .str "local"
      | .sequencerFeeVaultWithdrawalNetwork => .str "local"
      | .enableGovernance => .jbool true
      | .governanceTokenSymbol => .str "OP"
      | .governanceTokenName => .str "Optimism"
      | .governanceTokenOwner => .num (addrs.getD 5 0)
      | .gasPriceOracleBaseFeeScalar => .num 0
      | .gasPriceOracleBlobBaseFeeScalar => .num 1000000
      | .p2pSequencerAddress => .num (addrs.getD 6 0)
      | .batchSenderAddress => .num (addrs.getD 7 0)
      | .eip1559Denominator => .num 50
      | .eip1559DenominatorCanyon => .num 250
      | .eip1559Elasticity => .num 6
      | .l1ChainID => .num intent.L1ChainID
      | .l2ChainID => .num intent.L2ChainID
      | .l2BlockTime => .num 2
      | .finalizationPeriodSeconds => .num 12
      | .maxSequencerDrift => .num 600
      | .sequencerWindowSize => .num 3600
      | .channelTimeout => .num 300
      | .batchInboxAddress => .num (beBytesToNat (batchInboxAddress (L2ChainIDBigAbs intent.L2ChainID)))
      | .systemConfigStartBlock => .num 0
      | .l1StartingBlockTag => .num l1StartingBlockHash
      | .requiredProtocolVersion => .num OPStackSupport
      | .recommendedProtocolVersion => .num OPStackSupport
      | .superchainConfigGuardian => .num (addrs.getD 8 0)
      | .l2OutputOracleSubmissionInterval => .num 10
      | .l2OutputOracleStartingBlockNumber => .num 0
      | .l2OutputOracleStartingTimestamp => .num 0
      | .l2OutputOracleChallenger => .num (addrs.getD 9 0)
      | .l2OutputOracleProposer => .num (addrs.getD 10 0)
      | .useFaultProofs => .jbool false
      | .faultGameAbsolutePrestate => .num 0
      | .faultGameMaxDepth => .num 0
      | .faultGameClockExtension => .num 0
      | .faultGameMaxClockDuration => .num 0
      | .faultGameGenesisBlock => .num 0
      | .faultGameGenesisOutputRoot => .num 0
      | .faultGameSplitDepth => .num 0
      | .faultGameWithdrawalDelay => .num 0
      | .preimageOracleMinProposalSize => .num 0
      | .preimageOracleChallengePeriod => .num 0
      | .useAltDA => .jbool false
      | .daChallengeWindow => .num 0
      | .daResolveWindow => .num 0
      | .daBondSize => .num 0
      | .daResolverRefundPercentage => .num 0
    let cfg := if intent.FundDevAccounts then cfg.setF .fundDevAccounts (.jbool true) else cfg
    let cfg := if intent.UseFaultProofs then
        (((((((((((cfg.setF .useFaultProofs (.jbool true)).setF
          .faultGameAbsolutePrestate (.num DefaultFaultGameAbsolutePrestate)).setF
          .faultGameMaxDepth (.num 44)).setF
          .faultGameClockExtension (.num 0)).setF
          .faultGameMaxClockDuration (.num 1200)).setF
          .faultGameGenesisBlock (.num 0)).setF
          .faultGameGenesisOutputRoot (.num 0)).setF
          .faultGameSplitDepth (.num 14)).setF
          .faultGameWithdrawalDelay (.num 600)).setF
          .preimageOracleMinProposalSize (.num 1800000)).setF
          .preimageOracleChallengePeriod (.num 300))
      else cfg
    let cfg := if intent.UseAltDA then
        ((((cfg.setF .useAltDA (.jbool true)).setF
          .daChallengeWindow (.num 140)).setF
          .daResolveWindow (.num 160)).setF
          .daBondSize (.num 1000000)).setF
          .daResolverRefundPercentage (.num 0)
      else cfg
    match guardErr with
    | some e => (.error e, [.headerByNumber])
    | none =>
      match intent.Overrides with
      | some ov =>
        match ApplyDeployConfigOverrides cfg ov with
        | .error _ => (.error .applyOverrides, [.headerByNumber])
        | .ok cfg2 =>
          if cfgCheck cfg2 then (.ok cfg2, [.headerByNumber])
          else (.error .validation, [.headerByNumber])
      | none =>
        if cfgCheck cfg then (.ok cfg, [.headerByNumber])
        else (.error .validation, [.headerByNumber])

theorem addrFor_snd_eq_none_iff (keygen : Role → Option Nat) (g : Option GoError) (r : Role) :
    (addrFor keygen g r).2 = none ↔ g = none ∧ keygen r ≠ none := by
  cases g <;> cases hkr : keygen r <;> simp [addrFor, hkr]

theorem runAddrFor_guard_none_iff (keygen : Role → Option Nat) :
    ∀ (roles : List Role) (g : Option GoError),
    (runAddrFor keygen g roles).2 = none ↔ (g = none ∧ ∀ r ∈ roles, keygen r ≠ none) := by
  intro roles
  induction roles with
  | nil => intro g; simp [runAddrFor]
  | cons r rest ih =>
    intro g
    have hstep : (runAddrFor keygen g (r :: rest)).2 =
        (runAddrFor keygen (addrFor keygen g r).2 rest).2 := rfl
    rw [hstep, ih, addrFor_snd_eq_none_iff]
    constructor
    · rintro ⟨⟨hg, hr⟩, hrest⟩
      exact ⟨hg, by
        intro r2 hr2
        rcases List.mem_cons.mp hr2 with h | h
        · subst h; exact hr
        · exact hrest r2 h⟩
    · rintro ⟨hg, hall⟩
      exact ⟨⟨hg, hall r (List.mem_cons_self r rest)⟩, fun r2 h => hall r2 (List.mem_cons_of_mem _ h)⟩

/-- C6: if key derivation fails for any role during configuration
derivation, NewDeployConfig returns a single error and no configuration:
whatever the other oracles report, the result is one error value and never
a (partial) DeployConfig. -/
theorem newDeployConfig_err_of_keyFailure (keygen : Role → Option Nat)
    (l1StartingBlockHash : Nat) (cfgCheck : DeployConfig → Bool) (intent : ChainIntent)
    (h : ∃ r ∈ newDeployConfigRoles, keygen r = none) :
    ∃ e, (NewDeployConfig keygen (some l1StartingBlockHash) cfgCheck intent).1 = .error e := by
  obtain ⟨r, hr, hfail⟩ := h
  have hguard : (runAddrFor keygen none newDeployConfigRoles).2 ≠ none := by
    intro hnone
    rw [runAddrFor_guard_none_iff] at hnone
    exact hnone.2 r hr hfail
  rcases hg : (runAddrFor keygen none newDeployConfigRoles).2 with _ | e
  · exact absurd hg hguard
  · refine ⟨e, ?_⟩
    simp only [NewDeployConfig, hg]

/-- Witness for C6: a key generator failing on the batcher role makes
NewDeployConfig return an error even though the head fetch and the final
validation oracle succeed. -/
theorem newDeployConfig_err_of_keyFailure_witness :
    ∃ e, (NewDeployConfig (fun r => if r = .batcher then none else some 7) (some 11)
      (fun _ => true) ⟨1, 42, false, false, false, none⟩).1 = .error e :=
  newDeployConfig_err_of_keyFailure (fun r => if r = .batcher then none else some 7) 11
    (fun _ => true) ⟨1, 42, false, false, false, none⟩
    ⟨.batcher, by decide, by decide⟩

/-- C1 (code bug): the intent with both fault-proofs and alt-DA flags set
is invalid by the code's own validator ChainIntent.Check, yet
NewDeployConfig is never wired to that validator: it performs the
HeaderByNumber network call against the anchor chain unconditionally
(the call trace is nonempty for the invalid intent), and with all external
oracles succeeding it returns a configuration rather than any validation
error.  The claim that the invalid intent is rejected before any network
call is therefore false on the code. -/
theorem newDeployConfig_invalidIntent_codeBug :
    ChainIntent.Check ⟨1, 42, true, true, false, none⟩ =
      .error "cannot use both fault proofs and alt-DA" ∧
    (NewDeployConfig (fun _ => some 7) (some 11) (fun _ => true)
      ⟨1, 42, true, true, false, none⟩).2 = [.headerByNumber] ∧
    ∃ cfg, (NewDeployConfig (fun _ => some 7) (some 11) (fun _ => true)
      ⟨1, 42, true, true, false, none⟩).1 = .ok cfg := by
  refine ⟨rfl, rfl, ⟨_, rfl⟩⟩

/-! ## C10: properties of batchInboxAddress -/

theorem take_set_of_le {α : Type} (l : List α) (j m : Nat) (b : α) (hj : j < l.length)
    (h : m ≤ j) : (l.set j b).take m = l.take m := by
  rw [List.set_eq_take_cons_drop b hj]
  rw [List.take_append_of_le_length (by simp; omega)]
  rw [List.take_take]
  congr 1
  omega

theorem drop_set_self {α : Type} (l : List α) (j : Nat) (b : α) (hj : j < l.length) :
    (l.set j b).drop j = b :: l.drop (j + 1) := by
  rw [List.set_eq_take_cons_drop b hj]
  have hlen : (l.take j).length = j := by simp; omega
  calc (l.take j ++ b :: l.drop (j + 1)).drop j
      = (l.take j ++ b :: l.drop (j + 1)).drop (l.take j).length := by rw [hlen]
    _ = b :: l.drop (j + 1) := List.drop_left _ _

/-- The write loop writes the reversed byte sequence into positions
j-len+1 .. j, leaving the rest of the address unchanged, whenever the
bytes fit above position 0. -/
theorem writeLoop_spec : ∀ (bytesRev : List Nat) (addr : List Nat) (j : Nat),
    bytesRev.length ≤ j → j < addr.length →
    writeLoop addr bytesRev j =
      addr.take (j + 1 - bytesRev.length) ++ bytesRev.reverse ++ addr.drop (j + 1)
  | [], addr, j, _, _ => by
      simp [writeLoop]
  | b :: rest, addr, j, hlen, hj => by
      rw [writeLoop]
      simp only [List.length_cons] at hlen
      by_cases h1 : j = 1
      · subst h1
        have hrest : rest = [] := by
          have : rest.length = 0 := by omega
          exact List.length_eq_zero.mp this
        subst hrest
        rw [if_pos rfl]
        rw [List.set_eq_take_cons_drop b hj]
        simp
      · rw [if_neg h1]
        have hlen2 : rest.length ≤ j - 1 := by omega
        have hj2 : j - 1 < (addr.set j b).length := by simp; omega
        rw [writeLoop_spec rest (addr.set j b) (j - 1) hlen2 hj2]
        have hj1 : j - 1 + 1 = j := by omega
        rw [hj1]
        rw [take_set_of_le addr j _ b hj (by omega)]
        rw [drop_set_self addr j b hj]
        have hamt : j - rest.length = j + 1 - (rest.length + 1) := by omega
        rw [hamt]
        simp [List.append_assoc]

theorem beBytesToNat_replicate_zero_append (k : Nat) (bs : List Nat) :
    beBytesToNat (List.replicate k 0 ++ bs) = beBytesToNat bs := by
  induction k with
  | zero => rfl
  | succ n ih => simpa [beBytesToNat, List.replicate_succ] using ih

/-- The closed form of batchInboxAddress on a magnitude that fits in 19
bytes: 0x42 followed by the zero-padded big-endian bytes. -/
theorem batchInboxAddress_closedForm (n : Nat) (hn : n < 256 ^ 19) :
    batchInboxAddress n =
      0x42 :: (List.replicate (19 - (natToBEBytes n).length) 0 ++ natToBEBytes n) := by
  have hlenn : (natToBEBytes n).length ≤ 19 := natToBEBytes_length_le n 19 hn
  rw [batchInboxAddress]
  rw [writeLoop_spec (natToBEBytes n).reverse (0x42 :: List.replicate 19 0) 19
      (by simp; omega) (by simp)]
  rw [List.reverse_reverse]
  have htake : (0x42 :: List.replicate 19 0).take (19 + 1 - (natToBEBytes n).reverse.length) =
      0x42 :: List.replicate (19 - (natToBEBytes n).length) 0 := by
    have : 19 + 1 - (natToBEBytes n).reverse.length = (19 - (natToBEBytes n).length) + 1 := by
      simp
      omega
    rw [this]
    rw [List.take_succ_cons]
    rw [List.take_replicate]
    congr 2
    omega
  rw [htake]
  have hdrop : (0x42 :: List.replicate 19 0).drop (19 + 1) = [] := by
    apply List.drop_eq_nil_of_le
    simp
  rw [hdrop]
  simp

/-- C10 counterexample: the uint64 to int64 conversion in L2ChainIDBig
wraps chain ids at or above 2^63 and big.Int.Bytes drops the sign, so the
batch inbox address derived during configuration for such an id carries
the bytes of 2^64 - id: the distinct chain ids 5 and 2^64 - 5, both
fitting in 19 bytes, derive the same batch inbox address, refuting the
claimed representation and injectivity over all chain ids. -/
theorem batchInboxAddress_wrap_counterexample :
    (5 : Nat) ≠ 2 ^ 64 - 5 ∧ (5 : Nat) < 256 ^ 19 ∧ (2 ^ 64 - 5 : Nat) < 256 ^ 19 ∧
    batchInboxAddress (L2ChainIDBigAbs 5) =
      batchInboxAddress (L2ChainIDBigAbs (2 ^ 64 - 5)) := by
  refine ⟨by norm_num, by norm_num, by norm_num, ?_⟩
  have h1 : L2ChainIDBigAbs 5 = 5 := by norm_num [L2ChainIDBigAbs]
  have h2 : L2ChainIDBigAbs (2 ^ 64 - 5) = 5 := by norm_num [L2ChainIDBigAbs]
  rw [h1, h2]

/-- C10 (amended): for every L2 chain id below 2^63 (so the int64
conversion inside L2ChainIDBig does not wrap), the batch inbox address
derived during configuration is 20 bytes long, its first byte is 0x42,
its trailing bytes are the big-endian byte representation of the chain id
right-aligned into the last position, and two distinct such chain ids
yield distinct batch inbox addresses; the first address byte is never
overwritten for any uint64 chain id. -/
theorem batchInboxAddress_spec (id : Nat) (h : id < 2 ^ 63) :
    batchInboxAddress (L2ChainIDBigAbs id) =
      0x42 :: (List.replicate (19 - (natToBEBytes id).length) 0 ++ natToBEBytes id) ∧
    (batchInboxAddress (L2ChainIDBigAbs id)).length = 20 ∧
    (batchInboxAddress (L2ChainIDBigAbs id)).headD 0 = 0x42 ∧
    (∀ id3, id3 < 2 ^ 64 → (batchInboxAddress (L2ChainIDBigAbs id3)).headD 0 = 0x42) ∧
    (∀ id2, id2 < 2 ^ 63 → id ≠ id2 →
      batchInboxAddress (L2ChainIDBigAbs id) ≠ batchInboxAddress (L2ChainIDBigAbs id2)) := by
  have habs : L2ChainIDBigAbs id = id := if_pos h
  have hlt : id < 256 ^ 19 := by
    have : (2 : Nat) ^ 63 < 256 ^ 19 := by norm_num
    omega
  have hlen : (natToBEBytes id).length ≤ 19 := natToBEBytes_length_le id 19 hlt
  have hmain := batchInboxAddress_closedForm id hlt
  rw [habs]
  refine ⟨hmain, ?_, ?_, ?_, ?_⟩
  · rw [hmain]
    simp
    omega
  · rw [hmain]
    rfl
  · intro id3 h3
    have habs3 : L2ChainIDBigAbs id3 < 256 ^ 19 := by
      have h64 : (2 : Nat) ^ 64 < 256 ^ 19 := by norm_num
      rw [L2ChainIDBigAbs]
      split <;> omega
    rw [batchInboxAddress_closedForm _ habs3]
    rfl
  · intro id2 h2 hne heq
    have habs2 : L2ChainIDBigAbs id2 = id2 := if_pos h2
    rw [habs2] at heq
    have hlt2 : id2 < 256 ^ 19 := by
      have : (2 : Nat) ^ 63 < 256 ^ 19 := by norm_num
      omega
    have hm2 := batchInboxAddress_closedForm id2 hlt2
    rw [hmain, hm2] at heq
    injection heq with hhead htail
    have hv : beBytesToNat (List.replicate (19 - (natToBEBytes id).length) 0 ++ natToBEBytes id) =
        beBytesToNat (List.replicate (19 - (natToBEBytes id2).length) 0 ++ natToBEBytes id2) := by
      rw [htail]
    rw [beBytesToNat_replicate_zero_append, beBytesToNat_replicate_zero_append] at hv
    rw [beBytesToNat_natToBEBytes, beBytesToNat_natToBEBytes] at hv
    exact hne hv

/-- Witness for the amended C10 at the concrete chain id 42. -/
theorem batchInboxAddress_spec_witness :
    batchInboxAddress (L2ChainIDBigAbs 42) =
      0x42 :: (List.replicate (19 - (natToBEBytes 42).length) 0 ++ natToBEBytes 42) ∧
    (batchInboxAddress (L2ChainIDBigAbs 42)).length = 20 ∧
    (batchInboxAddress (L2ChainIDBigAbs 42)).headD 0 = 0x42 ∧
    (∀ id3, id3 < 2 ^ 64 → (batchInboxAddress (L2ChainIDBigAbs id3)).headD 0 = 0x42) ∧
    (∀ id2, id2 < 2 ^ 63 → 42 ≠ id2 →
      batchInboxAddress (L2ChainIDBigAbs 42) ≠ batchInboxAddress (L2ChainIDBigAbs id2)) :=
  batchInboxAddress_spec 42 (by norm_num)

/-! ## checkCreate2 (deploy.go): the Bootstrap Checker -/

/-- The address checkCreate2 queries, as written in deploy.go.  The source
deliberately altered the last byte of the canonical address (the canonical
constant is commented out next to it with the note that it was broken to
test the bootstrap path). -/
def Create2Address : Nat := 0x4e59b44847b379578588920cA78FbF26c0B4956d

/-- The canonical counterfactual-deployer address, from the commented-out
line in deploy.go and from the CREATE2 check in deploy.sh. -/
def CanonicalCreate2Address : Nat := 0x4e59b44847b379578588920cA78FbF26c0B4956C

/-- One receipt poll outcome of the bootstrap polling loop. -/
inductive ReceiptPoll where
  | notFound
  | rpcErr
  | mined (success : Bool)
  deriving DecidableEq

/-- One iteration event of the bootstrap polling loop: either the ticker
fires and the receipt is polled, or the surrounding context is cancelled. -/
inductive PollEvent where
  | tick (r : ReceiptPoll)
  | cancel
  deriving DecidableEq

/-- The outcome of checkCreate2.  pending stands for a loop that is still
polling after the supplied events (the source loop is unbounded). -/
inductive C2Result where
  | ok
  | dialErr
  | codeAtErr
  | sendErr
  | receiptErr
  | txFailed
  | cancelled
  | pending
  deriving DecidableEq

/-- The for/select polling loop of checkCreate2, consuming poll events in
order: a missing receipt continues the loop, a receipt-fetch error aborts,
a mined receipt with failure status is the fatal deployment-failed error, a
successful receipt completes, and cancellation aborts with the
cancellation-kind error.  The loop never submits a transaction. -/
def pollLoop : List PollEvent → C2Result
  | [] => .pending
  | .cancel :: _ => .cancelled
  | .tick .notFound :: rest => pollLoop rest
  | .tick .rpcErr :: _ => .receiptErr
  | .tick (.mined false) :: _ => .txFailed
  | .tick (.mined true) :: _ => .ok

/-- External-world oracles of one checkCreate2 invocation: the RPC dial
outcome, the contract code the anchor chain reports per address (none for a
CodeAt error), the submission outcome, and the polling events. -/
structure Create2Env where
  dialOk : Bool
  codeAt : Nat → Option (List Nat)
  sendOk : Bool
  events : List PollEvent

/-- checkCreate2 from deploy.go.  Returns the outcome together with the
number of bootstrap transactions submitted: the code reads the code at
Create2Address, returns immediately when it is non-empty, and otherwise
submits the raw bootstrap transaction exactly once before entering the
polling loop. -/
def checkCreate2 (env : Create2Env) : C2Result × Nat :=
  if !env.dialOk then (.dialErr, 0)
  else
    match env.codeAt Create2Address with
    | none => (.codeAtErr, 0)
    | some code =>
      if code.length > 0 then (.ok, 0)
      else if !env.sendOk then (.sendErr, 1)
      else (pollLoop env.events, 1)

/-- C7: within one invocation of the Bootstrap Checker the bootstrap
transaction is submitted at most once and the polling loop never resubmits
(the submission count is independent of the polling events); after any
number of pending polls, a mined receipt with failure status yields the
fatal error, a successful receipt completes with no error, and cancellation
mid-poll yields the cancellation-kind result. -/
theorem checkCreate2_polling_spec (env : Create2Env) (n : Nat) (rest : List PollEvent)
    (events2 : List PollEvent) :
    (checkCreate2 env).2 ≤ 1 ∧
    (checkCreate2 ⟨env.dialOk, env.codeAt, env.sendOk, events2⟩).2 = (checkCreate2 env).2 ∧
    pollLoop (List.replicate n (.tick .notFound) ++ .tick (.mined false) :: rest) = .txFailed ∧
    pollLoop (List.replicate n (.tick .notFound) ++ .tick (.mined true) :: rest) = .ok ∧
    pollLoop (List.replicate n (.tick .notFound) ++ .cancel :: rest) = .cancelled := by
  have hticks : ∀ (m : Nat) (tail : List PollEvent),
      pollLoop (List.replicate m (.tick .notFound) ++ tail) = pollLoop tail := by
    intro m
    induction m with
    | zero => intro tail; rfl
    | succ k ih => intro tail; rw [List.replicate_succ, List.cons_append, pollLoop, ih]
  refine ⟨?_, ?_, ?_, ?_, ?_⟩
  · rw [checkCreate2]
    rcases env.dialOk with _ | _
    · simp
    · simp only [Bool.not_true, Bool.false_eq_true, if_false]
      rcases env.codeAt Create2Address with _ | code
      · simp
      · simp only []
        by_cases hc : code.length > 0
        · simp [hc]
        · by_cases hs : env.sendOk <;> simp [hc, hs]
  · rw [checkCreate2, checkCreate2]
    rcases env.dialOk with _ | _
    · simp
    · simp only [Bool.not_true, Bool.false_eq_true, if_false]
      rcases env.codeAt Create2Address with _ | code
      · simp
      · simp only []
        by_cases hc : code.length > 0
        · simp [hc]
        · by_cases hs : env.sendOk <;> simp [hc, hs]
  · rw [hticks, pollLoop]
  · rw [hticks, pollLoop]
  · rw [hticks, pollLoop]

/-- C2 (code bug): the address the checker queries differs from the
canonical counterfactual-deployer address, so against a chain that reports
the helper code at the canonical address (and, the constant being wrong,
no code at the queried address), checkCreate2 submits a bootstrap
transaction instead of succeeding as a no-op: the second invocation
performs one transaction, not zero. -/
theorem checkCreate2_wrongAddress_codeBug :
    Create2Address ≠ CanonicalCreate2Address ∧
    (checkCreate2 ⟨true,
        fun a => if a = CanonicalCreate2Address then some [0x60, 0x45, 0x80] else some [],
        true, [.tick (.mined true)]⟩).2 = 1 ∧
    (fun a => if a = CanonicalCreate2Address then some [0x60, 0x45, 0x80]
        else some (α := List Nat) []) CanonicalCreate2Address = some [0x60, 0x45, 0x80] := by
  refine ⟨by decide, rfl, rfl⟩

/-! ## The pipeline stages: Configure (cli.go), Deploy (deploy.go),
Genesis (the deployer genesis command) -/

/-- The outcome of one pipeline stage: full success carrying the state
written, a failure of the final WriteDeploymentState call (the write was
attempted), an error on any earlier step, or a Go runtime panic. -/
inductive StageOutcome where
  | ok (s : DeploymentState)
  | errAtWrite (s : DeploymentState)
  | err (t : String)
  | panic

/-- The all-or-nothing persistence discipline of a stage: the list of
writes to the output state path is exactly one full document when the
stage reached its final write, and empty on every earlier failure. -/
def stageWritePolicy (out : StageOutcome) (writes : List DeploymentState) : Prop :=
  match out with
  | .ok s => writes = [s]
  | .errAtWrite s => writes = [s]
  | .err _ => writes = []
  | .panic => writes = []

/-- Map insert for the uint64-keyed Go maps of the state document. -/
def mapSetK {α : Type} (m : List (Nat × α)) (k : Nat) (v : α) : List (Nat × α) :=
  match m with
  | [] => [(k, v)]
  | (k2, v2) :: rest => if k2 = k then (k, v) :: rest else (k2, v2) :: mapSetK rest k v

/-- The L2ChainID field of a deployment configuration as a number. -/
def DeployConfig.L2ChainIDNat (c : DeployConfig) : Nat :=
  match c .l2ChainID with
  | .num n => n
  | _ => 0

/-- Oracles of one Configure invocation (cli.go): the ethclient.Dial
outcome, the state document read from the input path, the mnemonic key
generator construction outcome, and the oracles of NewDeployConfig. -/
structure ConfigureEnv where
  dialOk : Bool
  readState : Option DeploymentState
  keygenOk : Bool
  keygen : Role → Option Nat
  l1HeadHash : Option Nat
  cfgCheck : DeployConfig → Bool
  writeOk : Bool

/-- Configure from cli.go: dial, read the state document, require the
intent, build the key generator, derive the configuration, and write a
fresh state document holding only the intent and the derived
configuration; the returned trace lists the writes to the output path. -/
def Configure (env : ConfigureEnv) : StageOutcome × List DeploymentState :=
  if !env.dialOk then (.err "failed to connect to L1 RPC", [])
  else
    match env.readState with
    | none => (.err "failed to read chain intent", [])
    | some state =>
      match state.intent with
      | none => (.err "chain intent is nil", [])
      | some intent =>
        if !env.keygenOk then (.err "failed to create key generator", [])
        else
          match (NewDeployConfig env.keygen env.l1HeadHash env.cfgCheck intent).1 with
          | .error _ => (.err "failed to create deploy config", [])
          | .ok deployConfig =>
            let out : DeploymentState :=
              { intent := some intent, deployConfig := some deployConfig,
                addresses := none, genesisFiles := [], rollupConfigs := [] }
            if env.writeOk then (.ok out, [out]) else (.errAtWrite out, [out])

/-- Oracles of one Deploy invocation (deploy.go): the state read, the
checkCreate2 oracles, the backend selection and its construction outcome,
the backend deployment result, and the write outcome. -/
structure DeployEnv where
  readState : Option DeploymentState
  create2 : Create2Env
  localBackend : Bool
  dockerOk : Bool
  deployResult : Option Addresses
  writeOk : Bool

/-- Deploy from deploy.go: read the state document, run checkCreate2
(any non-success of the checker aborts the stage), construct the selected
backend, run the backend deployment, set the addresses on the state and
write it out. -/
def Deploy (env : DeployEnv) : StageOutcome × List DeploymentState :=
  match env.readState with
  | none => (.err "failed to read infile", [])
  | some state =>
    if (checkCreate2 env.create2).1 ≠ C2Result.ok then
      (.err "failed to check/create CREATE2 deployer", [])
    else if !env.localBackend && !env.dockerOk then
      (.err "failed to create docker client", [])
    else
      match env.deployResult with
      | none => (.err "backend deploy failed", [])
      | some addresses =>
        let out : DeploymentState := { state with addresses := some addresses }
        if env.writeOk then (.ok out, [out]) else (.errAtWrite out, [out])

/-- Oracles of one Genesis invocation: the state read, the docker backend
construction, the allocation generation and its decode, the anchor-chain
dial and start-block fetch, the genesis build, the rollup-config derivation
and its validation, the compressed genesis blob produced by the gzip
serialization, and the write outcome. -/
structure GenesisEnv where
  readState : Option DeploymentState
  dockerOk : Bool
  allocsResult : Option (List Nat)
  allocsDecodeOk : Bool
  dialOk : Bool
  startBlockOk : Bool
  buildOk : Bool
  rollupConfigResult : Option RollupConfig
  rollupCheckOk : Bool
  blob : List Nat
  writeOk : Bool

/-- Genesis from the deployer package: read the state document, refuse to
run without addresses, construct the backend, generate and decode the
allocations for state.DeployConfig.L2ChainID (a nil deployConfig pointer
is dereferenced there: a Go panic), fetch the configured start block,
build the genesis, derive and validate the rollup configuration, then
merge the chain id's genesis blob and rollup configuration into the state
maps and write the state out. -/
def Genesis (env : GenesisEnv) : StageOutcome × List DeploymentState :=
  match env.readState with
  | none => (.err "failed to read infile", [])
  | some state =>
    match state.addresses with
    | none => (.err "no addresses found in state - contracts must be deployed first", [])
    | some _ =>
      if !env.dockerOk then (.err "failed to create docker backend", [])
      else
        match state.deployConfig with
        | none => (.panic, [])
        | some deployConfig =>
          match env.allocsResult with
          | none => (.err "failed to generate allocs", [])
          | some _ =>
            if !env.allocsDecodeOk then (.err "failed to unmarshal allocs", [])
            else if !env.dialOk then (.err "failed to connect to L1 RPC", [])
            else if !env.startBlockOk then (.err "failed to fetch start block", [])
            else if !env.buildOk then (.err "failed to build L2 genesis", [])
            else
              match env.rollupConfigResult with
              | none => (.err "failed to create rollup config", [])
              | some rollupConfig =>
                if !env.rollupCheckOk then
                  (.err "generated rollup config does not pass validation", [])
                else
                  let l2ChainID := deployConfig.L2ChainIDNat
                  let out : DeploymentState := { state with
                    genesisFiles := mapSetK state.genesisFiles l2ChainID env.blob,
                    rollupConfigs := mapSetK state.rollupConfigs l2ChainID rollupConfig }
                  if env.writeOk then (.ok out, [out]) else (.errAtWrite out, [out])

/-- C5: every pipeline stage either reaches its final WriteDeploymentState
call and writes exactly the one fully updated state document, or fails
earlier (error or panic) having performed no write to the output state
path. -/
theorem stages_write_policy (ce : ConfigureEnv) (de : DeployEnv) (ge : GenesisEnv) :
    stageWritePolicy (Configure ce).1 (Configure ce).2 ∧
    stageWritePolicy (Deploy de).1 (Deploy de).2 ∧
    stageWritePolicy (Genesis ge).1 (Genesis ge).2 := by
  refine ⟨?_, ?_, ?_⟩
  · unfold Configure
    repeat' split
    all_goals simp [stageWritePolicy]
  · unfold Deploy
    repeat' split
    all_goals simp [stageWritePolicy]
  · unfold Genesis
    repeat' split
    all_goals simp [stageWritePolicy]

set_option linter.unusedTactic false in
/-- C9: every state document Configure writes carries no addresses, no
genesis files and no rollup configs, only the read intent and the freshly
derived configuration: re-running Configure after later stages discards
their accumulated artifacts. -/
theorem Configure_discards_later_artifacts (env : ConfigureEnv) (s : DeploymentState)
    (h : s ∈ (Configure env).2) :
    s.addresses = none ∧ s.genesisFiles = [] ∧ s.rollupConfigs = [] ∧
    ∃ state0 intent cfg, env.readState = some state0 ∧ state0.intent = some intent ∧
      s.intent = some intent ∧ s.deployConfig = some cfg ∧
      (NewDeployConfig env.keygen env.l1HeadHash env.cfgCheck intent).1 = .ok cfg := by
  simp only [Configure] at h
  cases hd : env.dialOk <;> rw [hd] at h
  · simp at h
  · rcases hr : env.readState with _ | state <;> rw [hr] at h <;> (try simp only [] at h)
    · simp at h
    · rcases hi : state.intent with _ | intent <;> rw [hi] at h <;> (try simp only [] at h)
      · simp at h
      · cases hk : env.keygenOk <;> rw [hk] at h <;> (try simp only [] at h)
        · simp at h
        · rcases hc : (NewDeployConfig env.keygen env.l1HeadHash env.cfgCheck intent).1
            with e | cfg <;> rw [hc] at h <;> (try simp only [] at h)
          · simp at h
          · cases hw : env.writeOk <;> rw [hw] at h <;> (try simp only [] at h) <;>
              simp at h <;> subst h
            · exact ⟨rfl, rfl, rfl, state, intent, cfg, rfl, hi, rfl, rfl, hc⟩
            · exact ⟨rfl, rfl, rfl, state, intent, cfg, rfl, hi, rfl, rfl, hc⟩

/-- An all-zero Addresses record, for concrete inputs. -/
def zeroAddresses : Addresses :=
  ⟨0, 0, 0, 0, 0, 0, 0, 0, 0, 0, 0, 0, 0, 0, 0, 0,
   0, 0, 0, 0, 0, 0, 0, 0, 0, 0, 0, 0, 0, 0, 0, 0⟩

/-- A concrete Configure environment whose input state already carries
addresses, a genesis file and a rollup config. -/
def cEnvPopulated : ConfigureEnv :=
  ⟨true,
   some ⟨some ⟨1, 42, false, false, false, none⟩, none, some zeroAddresses,
         [(42, [31, 139])], [(42, ⟨5⟩)]⟩,
   true, fun _ => some 7, some 11, fun _ => true, true⟩

/-- Witness for C9: Configure on the populated input state writes a
document with the artifacts of the later stages absent. -/
theorem Configure_discards_later_artifacts_witness :
    ∃ s, s ∈ (Configure cEnvPopulated).2 ∧
      (s.addresses = none ∧ s.genesisFiles = [] ∧ s.rollupConfigs = [] ∧
       ∃ state0 intent cfg, cEnvPopulated.readState = some state0 ∧
         state0.intent = some intent ∧ s.intent = some intent ∧ s.deployConfig = some cfg ∧
         (NewDeployConfig cEnvPopulated.keygen cEnvPopulated.l1HeadHash
           cEnvPopulated.cfgCheck intent).1 = .ok cfg) := by
  have hmem : ((Configure cEnvPopulated).2.headD ⟨none, none, none, [], []⟩) ∈
      (Configure cEnvPopulated).2 := by
    rw [show (Configure cEnvPopulated).2 =
      [(Configure cEnvPopulated).2.headD ⟨none, none, none, [], []⟩] from rfl]
    exact List.mem_singleton.mpr rfl
  exact ⟨_, hmem, Configure_discards_later_artifacts cEnvPopulated _ hmem⟩

/-- C4 (code bug): Genesis checks the addresses prerequisite and returns
an error when it is missing, but with addresses present and deployConfig
missing it dereferences the nil deployConfig pointer and panics instead of
returning an error; no state update is written in either case. -/
theorem genesis_missing_prereqs_codeBug :
    Genesis ⟨some ⟨some ⟨1, 42, false, false, false, none⟩, none, some zeroAddresses, [], []⟩,
        true, some [1], true, true, true, true, some ⟨0⟩, true, [31, 139], true⟩ =
      (.panic, []) ∧
    Genesis ⟨some ⟨some ⟨1, 42, false, false, false, none⟩, none, none, [], []⟩,
        true, some [1], true, true, true, true, some ⟨0⟩, true, [31, 139], true⟩ =
      (.err "no addresses found in state - contracts must be deployed first", []) :=
  ⟨rfl, rfl⟩

/-! ## C8: the state document codec (state.go) -/

/-- Base64Encoded from state.go. -/
def Base64Encoded := List Nat

/-- Base64Encoded.MarshalJSON: the JSON string of the base64 encoding. -/
def Base64Encoded.MarshalJSON (b : Base64Encoded) : Json := .str ⟨b64Encode b⟩

/-- Base64Encoded.UnmarshalJSON: expect a JSON string and base64-decode it. -/
def Base64Encoded.UnmarshalJSON (data : Json) : Option Base64Encoded :=
  match data with
  | .str s => b64Decode s.data
  | _ => none

/-- json.Marshal of a ChainIntent, one entry per tagged field. -/
def marshalChainIntent (c : ChainIntent) : Json :=
  .obj [("l1ChainID", .num c.L1ChainID), ("l2ChainID", .num c.L2ChainID),
        ("useFaultProofs", .jbool c.UseFaultProofs), ("useAltDA", .jbool c.UseAltDA),
        ("fundDevAccounts", .jbool c.FundDevAccounts),
        ("overrides", match c.Overrides with | none => .null | some m => .obj m)]

/-- json.Unmarshal of a ChainIntent document. -/
def unmarshalChainIntent (j : Json) : Option ChainIntent :=
  match j with
  | .obj kvs =>
    match lookupKV "l1ChainID" kvs, lookupKV "l2ChainID" kvs, lookupKV "useFaultProofs" kvs,
          lookupKV "useAltDA" kvs, lookupKV "fundDevAccounts" kvs, lookupKV "overrides" kvs with
    | some (.num l1), some (.num l2), some (.jbool fp), some (.jbool da),
        some (.jbool fd), some ov =>
      match ov with
      | .null => some ⟨l1, l2, fp, da, fd, none⟩
      | .obj m => some ⟨l1, l2, fp, da, fd, some m⟩
      | _ => none
    | _, _, _, _, _, _ => none
  | _ => none

/-- Decode of the intent field of the state document: a JSON null is the
nil intent pointer. -/
def unmarshalIntentField (j : Json) : Option (Option ChainIntent) :=
  match j with
  | .null => some none
  | _ => (unmarshalChainIntent j).map some

/-- json.Marshal of an Addresses record (addresses modelled as numbers). -/
def marshalAddresses (a : Addresses) : Json :=
  .obj [("AddressManager", .num a.AddressManager),
        ("AnchorStateRegistry", .num a.AnchorStateRegistry),
        ("AnchorStateRegistryProxy", .num a.AnchorStateRegistryProxy),
        ("DelayedWETH", .num a.DelayedWETH),
        ("DelayedWETHProxy", .num a.DelayedWETHProxy),
        ("DisputeGameFactory", .num a.DisputeGameFactory),
        ("DisputeGameFactoryProxy", .num a.DisputeGameFactoryProxy),
        ("L1CrossDomainMessenger", .num a.L1CrossDomainMessenger),
        ("L1CrossDomainMessengerProxy", .num a.L1CrossDomainMessengerProxy),
        ("L1ERC721Bridge", .num a.L1ERC721Bridge),
        ("L1ERC721BridgeProxy", .num a.L1ERC721BridgeProxy),
        ("L1StandardBridge", .num a.L1StandardBridge),
        ("L1StandardBridgeProxy", .num a.L1StandardBridgeProxy),
        ("L2OutputOracle", .num a.L2OutputOracle),
        ("L2OutputOracleProxy", .num a.L2OutputOracleProxy),
        ("Mips", .num a.Mips),
        ("OptimismMintableERC20Factory", .num a.OptimismMintableERC20Factory),
        ("OptimismMintableERC20FactoryProxy", .num a.OptimismMintableERC20FactoryProxy),
        ("OptimismPortal", .num a.OptimismPortal),
        ("OptimismPortal2", .num a.OptimismPortal2),
        ("OptimismPortalProxy", .num a.OptimismPortalProxy),
        ("PreimageOracle", .num a.PreimageOracle),
        ("ProtocolVersions", .num a.ProtocolVersions),
        ("ProtocolVersionsProxy", .num a.ProtocolVersionsProxy),
        ("ProxyAdmin", .num a.ProxyAdmin),
        ("SafeProxyFactory", .num a.SafeProxyFactory),
        ("SafeSingleton", .num a.SafeSingleton),
        ("SuperchainConfig", .num a.SuperchainConfig),
        ("SuperchainConfigProxy", .num a.SuperchainConfigProxy),
        ("SystemConfig", .num a.SystemConfig),
        ("SystemConfigProxy", .num a.SystemConfigProxy),
        ("SystemOwnerSafe", .num a.SystemOwnerSafe)]

/-- Read a numeric field of a document. -/
def getNum (kvs : List (String × Json)) (k : String) : Option Nat :=
  match lookupKV k kvs with
  | some (.num n) => some n
  | _ => none

/-- The document keys of an Addresses record, in field order. -/
def addressesKeys : List String :=
  ["AddressManager", "AnchorStateRegistry", "AnchorStateRegistryProxy", "DelayedWETH",
   "DelayedWETHProxy", "DisputeGameFactory", "DisputeGameFactoryProxy",
   "L1CrossDomainMessenger", "L1CrossDomainMessengerProxy", "L1ERC721Bridge",
   "L1ERC721BridgeProxy", "L1StandardBridge", "L1StandardBridgeProxy", "L2OutputOracle",
   "L2OutputOracleProxy", "Mips", "OptimismMintableERC20Factory",
   "OptimismMintableERC20FactoryProxy", "OptimismPortal", "OptimismPortal2",
   "OptimismPortalProxy", "PreimageOracle", "ProtocolVersions", "ProtocolVersionsProxy",
   "ProxyAdmin", "SafeProxyFactory", "SafeSingleton", "SuperchainConfig",
   "SuperchainConfigProxy", "SystemConfig", "SystemConfigProxy", "SystemOwnerSafe"]

/-- json.Unmarshal of an Addresses document: every field key must hold a
number; the record is built from the looked-up values. -/
def unmarshalAddresses (j : Json) : Option Addresses :=
  match j with
  | .obj kvs =>
    if addressesKeys.all (fun k => (getNum kvs k).isSome) then
      some ⟨(getNum kvs "AddressManager").getD 0,
            (getNum kvs "AnchorStateRegistry").getD 0,
            (getNum kvs "AnchorStateRegistryProxy").getD 0,
            (getNum kvs "DelayedWETH").getD 0,
            (getNum kvs "DelayedWETHProxy").getD 0,
            (getNum kvs "DisputeGameFactory").getD 0,
            (getNum kvs "DisputeGameFactoryProxy").getD 0,
            (getNum kvs "L1CrossDomainMessenger").getD 0,
            (getNum kvs "L1CrossDomainMessengerProxy").getD 0,
            (getNum kvs "L1ERC721Bridge").getD 0,
            (getNum kvs "L1ERC721BridgeProxy").getD 0,
            (getNum kvs "L1StandardBridge").getD 0,
            (getNum kvs "L1StandardBridgeProxy").getD 0,
            (getNum kvs "L2OutputOracle").getD 0,
            (getNum kvs "L2OutputOracleProxy").getD 0,
            (getNum kvs "Mips").getD 0,
            (getNum kvs "OptimismMintableERC20Factory").getD 0,
            (getNum kvs "OptimismMintableERC20FactoryProxy").getD 0,
            (getNum kvs "OptimismPortal").getD 0,
            (getNum kvs "OptimismPortal2").getD 0,
            (getNum kvs "OptimismPortalProxy").getD 0,
            (getNum kvs "PreimageOracle").getD 0,
            (getNum kvs "ProtocolVersions").getD 0,
            (getNum kvs "ProtocolVersionsProxy").getD 0,
            (getNum kvs "ProxyAdmin").getD 0,
            (getNum kvs "SafeProxyFactory").getD 0,
            (getNum kvs "SafeSingleton").getD 0,
            (getNum kvs "SuperchainConfig").getD 0,
            (getNum kvs "SuperchainConfigProxy").getD 0,
            (getNum kvs "SystemConfig").getD 0,
            (getNum kvs "SystemConfigProxy").getD 0,
            (getNum kvs "SystemOwnerSafe").getD 0⟩
    else none
  | _ => none

/-- Modelled from the spec: the JSON codec of rollup.Config, an external
record the pipeline serializes opaquely. -/
def marshalRollupConfig (rc : RollupConfig) : Json := .num rc.val

/-- Modelled from the spec: decode of a rollup.Config document. -/
def unmarshalRollupConfig (j : Json) : Option RollupConfig :=
  match j with
  | .num n => some ⟨n⟩
  | _ => none

/-- json.Marshal of the uint64-keyed genesis-files map: decimal string
keys, base64 string values. -/
def marshalGenesisFiles (m : List (Nat × List Nat)) : Json :=
  .obj (m.map (fun kv => (⟨natToDecimal kv.1⟩, Base64Encoded.MarshalJSON kv.2)))

/-- Decode of the genesis-files map entries. -/
def unmarshalGenesisFilesEntries : List (String × Json) → Option (List (Nat × List Nat))
  | [] => some []
  | (k, v) :: rest =>
    match decimalToNat k.data, Base64Encoded.UnmarshalJSON v,
          unmarshalGenesisFilesEntries rest with
    | some n, some b, some tail => some ((n, b) :: tail)
    | _, _, _ => none

/-- Decode of the genesis-files map. -/
def unmarshalGenesisFiles (j : Json) : Option (List (Nat × List Nat)) :=
  match j with
  | .obj kvs => unmarshalGenesisFilesEntries kvs
  | _ => none

/-- json.Marshal of the uint64-keyed rollup-configs map. -/
def marshalRollupConfigs (m : List (Nat × RollupConfig)) : Json :=
  .obj (m.map (fun kv => (⟨natToDecimal kv.1⟩, marshalRollupConfig kv.2)))

/-- Decode of the rollup-configs map entries. -/
def unmarshalRollupConfigsEntries : List (String × Json) → Option (List (Nat × RollupConfig))
  | [] => some []
  | (k, v) :: rest =>
    match decimalToNat k.data, unmarshalRollupConfig v, unmarshalRollupConfigsEntries rest with
    | some n, some rc, some tail => some ((n, rc) :: tail)
    | _, _, _ => none

/-- Decode of the rollup-configs map. -/
def unmarshalRollupConfigs (j : Json) : Option (List (Nat × RollupConfig)) :=
  match j with
  | .obj kvs => unmarshalRollupConfigsEntries kvs
  | _ => none

/-- json.Marshal of the DeploymentState document: the intent field is
always present (a nil intent is null); deployConfig, addresses,
genesisFiles and rollupConfigs carry omitempty and are omitted when nil or
empty. -/
def encodeDeploymentState (s : DeploymentState) : Json :=
  .obj ([("intent", match s.intent with | none => .null | some i => marshalChainIntent i)] ++
    (match s.deployConfig with
     | none => []
     | some c => [("deployConfig", .obj (marshalDeployConfig c))]) ++
    (match s.addresses with
     | none => []
     | some a => [("addresses", marshalAddresses a)]) ++
    (match s.genesisFiles with
     | [] => []
     | m => [("genesisFiles", marshalGenesisFiles m)]) ++
    (match s.rollupConfigs with
     | [] => []
     | m => [("rollupConfigs", marshalRollupConfigs m)]))

/-- json.Unmarshal of a DeploymentState document: absent omitempty fields
decode to their zero values. -/
def decodeDeploymentState (j : Json) : Option DeploymentState :=
  match j with
  | .obj kvs => do
    let intent ← match lookupKV "intent" kvs with
      | none => none
      | some ij => unmarshalIntentField ij
    let deployConfig ← match lookupKV "deployConfig" kvs with
      | none => some none
      | some dj =>
        match dj with
        | .obj kvs2 =>
          match unmarshalDeployConfig kvs2 with
          | .ok c => some (some c)
          | .error _ => none
        | _ => none
    let addresses ← match lookupKV "addresses" kvs with
      | none => some none
      | some aj => (unmarshalAddresses aj).map some
    let genesisFiles ← match lookupKV "genesisFiles" kvs with
      | none => some []
      | some gj => unmarshalGenesisFiles gj
    let rollupConfigs ← match lookupKV "rollupConfigs" kvs with
      | none => some []
      | some rj => unmarshalRollupConfigs rj
    some ⟨intent, deployConfig, addresses, genesisFiles, rollupConfigs⟩
  | _ => none

theorem base64Encoded_roundtrip (bs : List Nat) (h : ∀ b ∈ bs, b < 256) :
    Base64Encoded.UnmarshalJSON (Base64Encoded.MarshalJSON bs) = some bs := by
  show b64Decode (b64Encode bs) = some bs
  exact b64Decode_b64Encode bs h

theorem unmarshalChainIntent_marshal (c : ChainIntent) :
    unmarshalChainIntent (marshalChainIntent c) = some c := by
  obtain ⟨l1, l2, fp, da, fd, ov⟩ := c
  cases ov <;> rfl

theorem unmarshalIntentField_marshal (oi : Option ChainIntent) :
    unmarshalIntentField
      (match oi with | none => Json.null | some i => marshalChainIntent i) = some oi := by
  cases oi with
  | none => rfl
  | some i =>
    show (unmarshalChainIntent (marshalChainIntent i)).map some = some (some i)
    rw [unmarshalChainIntent_marshal]
    rfl

theorem unmarshalAddresses_marshal (a : Addresses) :
    unmarshalAddresses (marshalAddresses a) = some a := rfl

theorem unmarshalDeployConfig_marshal (c : DeployConfig) :
    unmarshalDeployConfig (marshalDeployConfig c) = .ok c := by
  have hall : (marshalDeployConfig c).all (fun kv => deployConfigKeys.contains kv.1) = true := rfl
  rw [unmarshalDeployConfig, if_pos hall]
  congr 1
  funext f
  rw [lookupKV_marshalDeployConfig]
  rfl

theorem unmarshalRollupConfigs_marshal (m : List (Nat × RollupConfig)) :
    unmarshalRollupConfigs (marshalRollupConfigs m) = some m := by
  induction m with
  | nil => rfl
  | cons kv rest ih =>
    obtain ⟨n, rc⟩ := kv
    obtain ⟨v⟩ := rc
    have hk : decimalToNat (String.data ⟨natToDecimal n⟩) = some n :=
      decimalToNat_natToDecimal n
    show unmarshalRollupConfigsEntries
      ((⟨natToDecimal n⟩, Json.num v) ::
        rest.map (fun kv => (⟨natToDecimal kv.1⟩, marshalRollupConfig kv.2))) =
      some ((n, ⟨v⟩) :: rest)
    rw [unmarshalRollupConfigsEntries, hk]
    have ihe : unmarshalRollupConfigsEntries
        (rest.map (fun kv => (⟨natToDecimal kv.1⟩, marshalRollupConfig kv.2))) = some rest := ih
    rw [show unmarshalRollupConfig (Json.num v) = some ⟨v⟩ from rfl, ihe]

theorem unmarshalGenesisFiles_marshal (m : List (Nat × List Nat))
    (h : ∀ kv ∈ m, ∀ b ∈ kv.2, b < 256) :
    unmarshalGenesisFiles (marshalGenesisFiles m) = some m := by
  induction m with
  | nil => rfl
  | cons kv rest ih =>
    obtain ⟨n, bs⟩ := kv
    have hk : decimalToNat (String.data ⟨natToDecimal n⟩) = some n :=
      decimalToNat_natToDecimal n
    have hb : Base64Encoded.UnmarshalJSON (Base64Encoded.MarshalJSON bs) = some bs :=
      base64Encoded_roundtrip bs (by
        intro b hbmem
        exact h (n, bs) (List.mem_cons_self _ _) b hbmem)
    show unmarshalGenesisFilesEntries
      ((⟨natToDecimal n⟩, Base64Encoded.MarshalJSON bs) ::
        rest.map (fun kv => (⟨natToDecimal kv.1⟩, Base64Encoded.MarshalJSON kv.2))) =
      some ((n, bs) :: rest)
    rw [unmarshalGenesisFilesEntries, hk, hb]
    have ihe : unmarshalGenesisFilesEntries
        (rest.map (fun kv => (⟨natToDecimal kv.1⟩, Base64Encoded.MarshalJSON kv.2))) =
        some rest :=
      ih (fun kv hkv => h kv (List.mem_cons_of_mem _ hkv))
    rw [ihe]

theorem unmarshalIntentField_marshalChainIntent (i : ChainIntent) :
    unmarshalIntentField (marshalChainIntent i) = some (some i) :=
  unmarshalIntentField_marshal (some i)

theorem unmarshalIntentField_null : unmarshalIntentField Json.null = some none := rfl

/-- C8: encoding a DeploymentState to the JSON document format and
decoding the result reproduces an equal value (the byte bound is the Go
invariant that blobs are byte slices); in particular Base64Encoded's
MarshalJSON followed by UnmarshalJSON is the identity on every byte slice,
so compressed genesis blobs survive the round-trip byte-exactly. -/
theorem deploymentState_roundtrip (s : DeploymentState)
    (hbytes : ∀ kv ∈ s.genesisFiles, ∀ b ∈ kv.2, b < 256) :
    decodeDeploymentState (encodeDeploymentState s) = some s ∧
    ∀ bs : List Nat, (∀ b ∈ bs, b < 256) →
      Base64Encoded.UnmarshalJSON (Base64Encoded.MarshalJSON bs) = some bs := by
  refine ⟨?_, fun bs hbs => base64Encoded_roundtrip bs hbs⟩
  obtain ⟨i, d, a, g, r⟩ := s
  have hGF : unmarshalGenesisFiles (marshalGenesisFiles g) = some g :=
    unmarshalGenesisFiles_marshal g hbytes
  have hRC : unmarshalRollupConfigs (marshalRollupConfigs r) = some r :=
    unmarshalRollupConfigs_marshal r
  cases i <;> cases d <;> cases a <;> cases g <;> cases r <;>
    simp_all [encodeDeploymentState, decodeDeploymentState, lookupKV,
      unmarshalIntentField_marshalChainIntent, unmarshalIntentField_null,
      unmarshalDeployConfig_marshal, unmarshalAddresses_marshal]

/-- Witness for C8: round-trip of a concrete fully populated state
document, including a genesis blob. -/
theorem deploymentState_roundtrip_witness :
    decodeDeploymentState (encodeDeploymentState
      ⟨some ⟨1, 42, false, false, false, none⟩, some (fun _ => Json.null), some zeroAddresses,
       [(42, [31, 139, 8, 255])], [(42, ⟨5⟩)]⟩) =
    some ⟨some ⟨1, 42, false, false, false, none⟩, some (fun _ => Json.null), some zeroAddresses,
       [(42, [31, 139, 8, 255])], [(42, ⟨5⟩)]⟩ :=
  (deploymentState_roundtrip
    ⟨some ⟨1, 42, false, false, false, none⟩, some (fun _ => Json.null), some zeroAddresses,
     [(42, [31, 139, 8, 255])], [(42, ⟨5⟩)]⟩ (by decide)).1
